import Mathlib

/-!
# SBWatchpointLocation

A shallow embedding of `source/API/SBWatchpointLocation.cpp`, the public
handle over a watchpoint location owned by a debugging target, together with
the properties of its specification that can be settled on it.

## Shape of the embedding

* A handle is its only member, `m_opaque_sp`: a shared pointer, here
  `Option Ref`, `none` being the empty pointer.  A non-empty shared pointer
  keeps its pointee alive, so the heap is a total map from references to
  watchpoint locations and there is no dangling case.
* Every member function becomes an `Action`: a function from the world before
  the call to an `Outcome`, which holds the returned value, the world after the
  call, and the trace of the calls the body makes on the watchpoint, the
  target and the mutex.  The trace is not written by hand: each body is a
  sequence of the calls of the source, in source order, and every call
  records itself.  The declaration
  `Mutex::Locker api_locker (m_opaque_sp->GetTarget().GetAPIMutex())` is three
  calls, `GetTarget` on the watchpoint, `GetAPIMutex` on the target, then the
  constructor that takes the mutex; the end of the declaring block is the
  destructor that releases it.
* Writing to the API log (`GetID`, `GetHitCount`) changes neither the target
  nor the watchpoint and is left out.
* The internal classes `WatchpointLocation`, `Target`, `Stream` and the
  constants of `lldb-defines.h` are used by this file but defined elsewhere.
  The watchpoint's data is modelled from the specification's data model; the
  target's disable operation, the internal description and the two invalid
  constants are parameters of the functions that use them.
-/

namespace lldb

/-- Type `lldb::watch_id_t`. -/
abbrev watch_id_t := Int

/-- Type `lldb::addr_t`. -/
abbrev addr_t := Nat

/-- Identity of a `Target`, and so of its API mutex. -/
abbrev TargetRef := Nat

/-- The address a non-empty `WatchpointLocationSP` holds. -/
abbrev Ref := Nat

/-- Modelled from the spec: `lldb::DescriptionLevel` (lldb-enumerations.h is
not part of the sources at hand); a verbosity enumeration with at least the
level brief. -/
inductive DescriptionLevel
  | eDescriptionLevelBrief
  | eDescriptionLevelFull
  | eDescriptionLevelVerbose
  deriving DecidableEq, Repr

/-- Modelled from the spec: the internal class `WatchpointLocation`
(lldb/Breakpoint/WatchpointLocation.h is not part of the sources at hand).
The fields are those of the specification's data model, plus the owning
target that `GetTarget()` returns. -/
structure WatchpointLocation where
  id : watch_id_t
  address : addr_t
  byteSize : Nat
  hardwareIndex : Int
  enabled : Bool
  hitCount : Nat
  ignoreCount : Nat
  target : TargetRef
  deriving DecidableEq, Repr

namespace WatchpointLocation

/-- Modelled from the spec: `WatchpointLocation::GetID`, the unique watchpoint id. -/
def GetID (wp : WatchpointLocation) : watch_id_t := wp.id

/-- Modelled from the spec: `WatchpointLocation::GetLoadAddress`, the load
address being watched. -/
def GetLoadAddress (wp : WatchpointLocation) : addr_t := wp.address

/-- Modelled from the spec: `WatchpointLocation::GetByteSize`, the byte width
watched. -/
def GetByteSize (wp : WatchpointLocation) : Nat := wp.byteSize

/-- Modelled from the spec: `WatchpointLocation::GetHardwareIndex`, the current
hardware register index. -/
def GetHardwareIndex (wp : WatchpointLocation) : Int := wp.hardwareIndex

/-- Modelled from the spec: `WatchpointLocation::IsEnabled`, the current
enabled state. -/
def IsEnabled (wp : WatchpointLocation) : Bool := wp.enabled

/-- Modelled from the spec: `WatchpointLocation::GetHitCount`, the cumulative
trigger count. -/
def GetHitCount (wp : WatchpointLocation) : Nat := wp.hitCount

/-- Modelled from the spec: `WatchpointLocation::GetIgnoreCount`, the remaining
suppressed triggers. -/
def GetIgnoreCount (wp : WatchpointLocation) : Nat := wp.ignoreCount

/-- Modelled from the spec: `WatchpointLocation::SetIgnoreCount (uint32_t n)`,
sets the remaining suppressed triggers to `n`; the argument is a 32-bit
unsigned value. -/
def SetIgnoreCount (wp : WatchpointLocation) (n : Nat) : WatchpointLocation :=
  { wp with ignoreCount := n % 2 ^ 32 }

/-- Modelled from the spec: `WatchpointLocation::GetTarget`, the owning target. -/
def GetTarget (wp : WatchpointLocation) : TargetRef := wp.target

end WatchpointLocation

/-- The state outside the handle: the watchpoint locations shared pointers
refer to. -/
structure World where
  heap : Ref → WatchpointLocation

/-- Replace the watchpoint location at `r`. -/
def World.set (w : World) (r : Ref) (wp : WatchpointLocation) : World :=
  { heap := fun r' => if r' = r then wp else w.heap r' }

/-- The target that owns the watchpoint location at `r`. -/
def World.owner (w : World) (r : Ref) : TargetRef := (w.heap r).GetTarget

/-- Modelled from the spec: `Target::DisableWatchpointLocationByID`
(lldb/Target/Target.h is not part of the sources at hand), the target's
"disable by id" operation: the watchpoint registered in target `t` under
`watch_id` is no longer armed. -/
def Target.DisableWatchpointLocationByID (w : World) (t : TargetRef)
    (watch_id : watch_id_t) : World :=
  { heap := fun r =>
      if (w.heap r).target = t ∧ (w.heap r).id = watch_id then
        { w.heap r with enabled := false }
      else w.heap r }

/-- The members of the watchpoint that the handle calls through `m_opaque_sp`. -/
inductive Member
  | GetTarget
  | GetID
  | GetHardwareIndex
  | GetLoadAddress
  | GetByteSize
  | IsEnabled
  | GetHitCount
  | GetIgnoreCount
  | SetIgnoreCount
  | GetDescription
  deriving DecidableEq, Repr

/-- The calls a member function makes on its collaborators: `call r member` is
`m_opaque_sp->member (...)` on the watchpoint at `r`; `getAPIMutex t` is
`GetAPIMutex ()` on target `t`; `lock t` and `unlock t` are the constructor and
the destructor of a `Mutex::Locker` on the API mutex of `t`;
`disableByID t watch_id` is `DisableWatchpointLocationByID (watch_id)` on
target `t`. -/
inductive Event
  | call (r : Ref) (member : Member)
  | getAPIMutex (t : TargetRef)
  | lock (t : TargetRef)
  | unlock (t : TargetRef)
  | disableByID (t : TargetRef) (watch_id : watch_id_t)
  deriving DecidableEq, Repr

/-- What a call leaves behind: the value returned, the world afterwards and
the calls made, in order. -/
structure Outcome (α : Type) where
  ret : α
  world : World
  trace : List Event

/-- A piece of a member function's body: from the world before it to its
outcome. -/
def Action (α : Type) : Type := World → Outcome α

/-- A value computed without any call. -/
def Action.pure {α : Type} (a : α) : Action α :=
  fun w => { ret := a, world := w, trace := [] }

/-- Sequencing: `x`, then `f` on its value, in the world `x` leaves; the traces
follow one another. -/
def Action.bind {α β : Type} (x : Action α) (f : α → Action β) : Action β :=
  fun w =>
    { ret := (f (x w).ret (x w).world).ret,
      world := (f (x w).ret (x w).world).world,
      trace := (x w).trace ++ (f (x w).ret (x w).world).trace }

instance : Monad Action where
  pure := Action.pure
  bind := Action.bind

/-- The call `m_opaque_sp->member ()` of a member that only reads the
watchpoint at `r`; `get` is what the member returns. -/
def callOn {α : Type} (r : Ref) (member : Member) (get : WatchpointLocation → α) :
    Action α :=
  fun w => { ret := get (w.heap r), world := w, trace := [.call r member] }

/-- The call `m_opaque_sp->member (...)` of a member that changes the
watchpoint at `r`; `put` is the change. -/
def callOnMut (r : Ref) (member : Member) (put : WatchpointLocation → WatchpointLocation) :
    Action Unit :=
  fun w => { ret := (), world := w.set r (put (w.heap r)), trace := [.call r member] }

/-- The call `m_opaque_sp->GetDescription (s, level)` on the watchpoint at `r`;
`describe` is the text it writes into the stream `s`. -/
def callGetDescription (describe : World → Ref → DescriptionLevel → String) (r : Ref)
    (level : DescriptionLevel) : Action String :=
  fun w => { ret := describe w r level, world := w, trace := [.call r .GetDescription] }

/-- The call `GetAPIMutex ()` on target `t`; the mutex is named by its target. -/
def Target.GetAPIMutex (t : TargetRef) : Action TargetRef :=
  fun w => { ret := t, world := w, trace := [.getAPIMutex t] }

/-- The call `DisableWatchpointLocationByID (watch_id)` on target `t`, whose
returned flag the handle drops; `disable` is what the target does. -/
def Target.callDisableByID (disable : World → TargetRef → watch_id_t → World)
    (t : TargetRef) (watch_id : watch_id_t) : Action Unit :=
  fun w => { ret := (), world := disable w t watch_id, trace := [.disableByID t watch_id] }

/-- Constructor of `Mutex::Locker`: takes the mutex. -/
def Mutex.Locker.ctor (mutex : TargetRef) : Action Unit :=
  fun w => { ret := (), world := w, trace := [.lock mutex] }

/-- Destructor of `Mutex::Locker`, run where the declaring block ends:
releases the mutex. -/
def Mutex.Locker.dtor (mutex : TargetRef) : Action Unit :=
  fun w => { ret := (), world := w, trace := [.unlock mutex] }

/-- Modelled from the spec: the text an `SBStream` has accumulated, an
append-only sink (lldb/API/SBStream.h is not part of the sources at hand). -/
abbrev SBStream := String

/-- Modelled from the spec: `SBStream::Printf` with a format that has no
conversions appends the format text. -/
def SBStream.Printf (description : SBStream) (format : String) : SBStream :=
  description ++ format

/-- Modelled from the spec: `Stream::EOL` appends one line terminator. -/
def Stream.EOL (s : SBStream) : SBStream := s ++ "\n"

/-- Whether the text ends with a line terminator. -/
def endsWithEOL (s : String) : Bool := s.data.getLast? = some '\n'

/-- The handle: class `SBWatchpointLocation`, whose only member is the shared
pointer `m_opaque_sp`. -/
structure SBWatchpointLocation where
  m_opaque_sp : Option Ref
  deriving DecidableEq, Repr

namespace SBWatchpointLocation

/-- Default constructor: `m_opaque_sp ()`. -/
def default : SBWatchpointLocation := { m_opaque_sp := none }

/-- Constructor from a shared pointer: `m_opaque_sp (watch_loc_sp)`. -/
def ofSP (watch_loc_sp : Option Ref) : SBWatchpointLocation :=
  { m_opaque_sp := watch_loc_sp }

/-- Copy constructor: `m_opaque_sp (rhs.m_opaque_sp)`. -/
def copy (rhs : SBWatchpointLocation) : SBWatchpointLocation :=
  { m_opaque_sp := rhs.m_opaque_sp }

/-- Assignment, `operator =`.  Handle objects live at addresses of a store;
`this` and `rhs` are the addresses of the two operands, so that the test
`this != &rhs` is a comparison of addresses. -/
def assign (handles : Nat → SBWatchpointLocation) (this rhs : Nat) :
    Nat → SBWatchpointLocation :=
  if this ≠ rhs then
    fun a => if a = this then { m_opaque_sp := (handles rhs).m_opaque_sp } else handles a
  else handles

/-- Member `GetID` (lines 66-84): no `Mutex::Locker` is declared. -/
def GetID (LLDB_INVALID_WATCH_ID : watch_id_t) (this : SBWatchpointLocation) :
    Action watch_id_t :=
  match this.m_opaque_sp with
  | some r => callOn r .GetID WatchpointLocation.GetID
  | none => pure LLDB_INVALID_WATCH_ID

/-- Member `IsValid`: `m_opaque_sp.get() != NULL`. -/
def IsValid (this : SBWatchpointLocation) : Action Bool :=
  pure this.m_opaque_sp.isSome

/-- Member `GetHardwareIndex` (lines 92-104). -/
def GetHardwareIndex (this : SBWatchpointLocation) : Action Int :=
  match this.m_opaque_sp with
  | some r => do
    let target ← callOn r .GetTarget WatchpointLocation.GetTarget
    let mutex ← Target.GetAPIMutex target
    Mutex.Locker.ctor mutex
    let hw_index ← callOn r .GetHardwareIndex WatchpointLocation.GetHardwareIndex
    Mutex.Locker.dtor mutex
    pure hw_index
  | none => pure (-1)

/-- Member `GetWatchAddress` (lines 106-118). -/
def GetWatchAddress (LLDB_INVALID_ADDRESS : addr_t) (this : SBWatchpointLocation) :
    Action addr_t :=
  match this.m_opaque_sp with
  | some r => do
    let target ← callOn r .GetTarget WatchpointLocation.GetTarget
    let mutex ← Target.GetAPIMutex target
    Mutex.Locker.ctor mutex
    let ret_addr ← callOn r .GetLoadAddress WatchpointLocation.GetLoadAddress
    Mutex.Locker.dtor mutex
    pure ret_addr
  | none => pure LLDB_INVALID_ADDRESS

/-- Member `GetWatchSize` (lines 120-132). -/
def GetWatchSize (this : SBWatchpointLocation) : Action Nat :=
  match this.m_opaque_sp with
  | some r => do
    let target ← callOn r .GetTarget WatchpointLocation.GetTarget
    let mutex ← Target.GetAPIMutex target
    Mutex.Locker.ctor mutex
    let watch_size ← callOn r .GetByteSize WatchpointLocation.GetByteSize
    Mutex.Locker.dtor mutex
    pure watch_size
  | none => pure 0

set_option linter.unusedVariables false in
/-- Member `SetEnabled` (lines 134-142).  The body never reads `enabled`:
under the lock it calls the target's `DisableWatchpointLocationByID` with the
watchpoint's own id.  What the target does is the parameter `disable`.  In
line 140 the target and the id are both obtained from the watchpoint, inside
the locker's block, before the target is called. -/
def SetEnabled (disable : World → TargetRef → watch_id_t → World)
    (this : SBWatchpointLocation) (enabled : Bool) : Action Unit :=
  match this.m_opaque_sp with
  | some r => do
    let target ← callOn r .GetTarget WatchpointLocation.GetTarget
    let mutex ← Target.GetAPIMutex target
    Mutex.Locker.ctor mutex
    let target ← callOn r .GetTarget WatchpointLocation.GetTarget
    let watch_id ← callOn r .GetID WatchpointLocation.GetID
    Target.callDisableByID disable target watch_id
    Mutex.Locker.dtor mutex
  | none => pure ()

/-- Member `IsEnabled` (lines 144-154). -/
def IsEnabled (this : SBWatchpointLocation) : Action Bool :=
  match this.m_opaque_sp with
  | some r => do
    let target ← callOn r .GetTarget WatchpointLocation.GetTarget
    let mutex ← Target.GetAPIMutex target
    Mutex.Locker.ctor mutex
    let enabled ← callOn r .IsEnabled WatchpointLocation.IsEnabled
    Mutex.Locker.dtor mutex
    pure enabled
  | none => pure false

/-- Member `GetHitCount` (lines 156-171). -/
def GetHitCount (this : SBWatchpointLocation) : Action Nat :=
  match this.m_opaque_sp with
  | some r => do
    let target ← callOn r .GetTarget WatchpointLocation.GetTarget
    let mutex ← Target.GetAPIMutex target
    Mutex.Locker.ctor mutex
    let count ← callOn r .GetHitCount WatchpointLocation.GetHitCount
    Mutex.Locker.dtor mutex
    pure count
  | none => pure 0

/-- Member `GetIgnoreCount` (lines 173-183). -/
def GetIgnoreCount (this : SBWatchpointLocation) : Action Nat :=
  match this.m_opaque_sp with
  | some r => do
    let target ← callOn r .GetTarget WatchpointLocation.GetTarget
    let mutex ← Target.GetAPIMutex target
    Mutex.Locker.ctor mutex
    let count ← callOn r .GetIgnoreCount WatchpointLocation.GetIgnoreCount
    Mutex.Locker.dtor mutex
    pure count
  | none => pure 0

/-- Member `SetIgnoreCount` (lines 185-193). -/
def SetIgnoreCount (this : SBWatchpointLocation) (n : Nat) : Action Unit :=
  match this.m_opaque_sp with
  | some r => do
    let target ← callOn r .GetTarget WatchpointLocation.GetTarget
    let mutex ← Target.GetAPIMutex target
    Mutex.Locker.ctor mutex
    callOnMut r .SetIgnoreCount (fun wp => wp.SetIgnoreCount n)
    Mutex.Locker.dtor mutex
  | none => pure ()

/-- Member `GetDescription` (lines 195-209).  The value returned is the flag
paired with the sink after the call.  The text the internal
`WatchpointLocation::GetDescription` writes into the sink is the parameter
`describe`. -/
def GetDescription (describe : World → Ref → DescriptionLevel → String)
    (this : SBWatchpointLocation) (description : SBStream) (level : DescriptionLevel) :
    Action (Bool × SBStream) :=
  match this.m_opaque_sp with
  | some r => do
    let target ← callOn r .GetTarget WatchpointLocation.GetTarget
    let mutex ← Target.GetAPIMutex target
    Mutex.Locker.ctor mutex
    let text ← callGetDescription describe r level
    let description := Stream.EOL (description ++ text)
    Mutex.Locker.dtor mutex
    pure (true, description)
  | none => pure (true, SBStream.Printf description "No value")

end SBWatchpointLocation

/-- Lock discipline of one trace, as the contract words it: `held` being the
API mutexes held so far and `owner` giving the target of each watchpoint, a
mutex is taken only when not held and released only when held, a member of a
watchpoint is called only while its owner's mutex is held, a target's disable
operation is called only while its mutex is held, and nothing is held at the
end. -/
def lockDisciplined (owner : Ref → TargetRef) : List TargetRef → List Event → Bool
  | held, [] => held.isEmpty
  | held, .call r _ :: es => held.contains (owner r) && lockDisciplined owner held es
  | held, .getAPIMutex _ :: es => lockDisciplined owner held es
  | held, .lock t :: es => !held.contains t && lockDisciplined owner (t :: held) es
  | held, .unlock t :: es => held.contains t && lockDisciplined owner (held.erase t) es
  | held, .disableByID t _ :: es => held.contains t && lockDisciplined owner held es

/-- Lock discipline after the lookup of the mutex: the trace begins with the
two calls that find the API mutex, `GetTarget` on the watchpoint at `r` and
`GetAPIMutex` on its owner, made with no lock held; the next call takes that
mutex; and from there on the trace keeps the lock discipline. -/
def lockedAfterLookup (owner : Ref → TargetRef) (r : Ref) (trace : List Event) : Bool :=
  trace.take 2 == [.call r .GetTarget, .getAPIMutex (owner r)] &&
  (trace.drop 2).head? == some (.lock (owner r)) &&
  lockDisciplined owner [] (trace.drop 2)

/-- The operations of the handle, as data. -/
inductive Op
  | IsValid
  | GetID
  | GetHardwareIndex
  | GetWatchAddress
  | GetWatchSize
  | SetEnabled (enabled : Bool)
  | IsEnabled
  | GetHitCount
  | GetIgnoreCount
  | SetIgnoreCount (n : Nat)
  | GetDescription (description : SBStream) (level : DescriptionLevel)

/-- The world after one operation through the handle `this`. -/
def Op.apply (disable : World → TargetRef → watch_id_t → World)
    (describe : World → Ref → DescriptionLevel → String)
    (LLDB_INVALID_WATCH_ID : watch_id_t) (LLDB_INVALID_ADDRESS : addr_t)
    (this : SBWatchpointLocation) (w : World) : Op → World
  | .IsValid => (this.IsValid w).world
  | .GetID => (this.GetID LLDB_INVALID_WATCH_ID w).world
  | .GetHardwareIndex => (this.GetHardwareIndex w).world
  | .GetWatchAddress => (this.GetWatchAddress LLDB_INVALID_ADDRESS w).world
  | .GetWatchSize => (this.GetWatchSize w).world
  | .SetEnabled enabled => (this.SetEnabled disable enabled w).world
  | .IsEnabled => (this.IsEnabled w).world
  | .GetHitCount => (this.GetHitCount w).world
  | .GetIgnoreCount => (this.GetIgnoreCount w).world
  | .SetIgnoreCount n => (this.SetIgnoreCount n w).world
  | .GetDescription description level =>
    (this.GetDescription describe description level w).world

/-- Whether the operation is a call of `SetEnabled`. -/
def Op.isSetEnabled : Op → Bool
  | .SetEnabled _ => true
  | _ => false

/-- The world after a sequence of operations through the handle `this`. -/
def runOps (disable : World → TargetRef → watch_id_t → World)
    (describe : World → Ref → DescriptionLevel → String)
    (LLDB_INVALID_WATCH_ID : watch_id_t) (LLDB_INVALID_ADDRESS : addr_t)
    (this : SBWatchpointLocation) (w : World) (ops : List Op) : World :=
  ops.foldl (Op.apply disable describe LLDB_INVALID_WATCH_ID LLDB_INVALID_ADDRESS this) w

/-- A sample watchpoint location: armed, bound to hardware slot 2 of target 7. -/
def sampleLocation : WatchpointLocation :=
  { id := 1, address := 4096, byteSize := 4, hardwareIndex := 2, enabled := true,
    hitCount := 3, ignoreCount := 5, target := 7 }

/-- A sample world in which every reference denotes `sampleLocation`. -/
def sampleWorld : World := { heap := fun _ => sampleLocation }

/-- A sample internal description, the same at every level. -/
def sampleDescribe : World → Ref → DescriptionLevel → String :=
  fun _ _ _ => "watchpoint"

/-! ## Properties -/

open SBWatchpointLocation

/-- C1: on the default-constructed (empty) handle every operation returns its
sentinel (`LLDB_INVALID_WATCH_ID`, `-1`, `LLDB_INVALID_ADDRESS`, `0`, `false`,
`false`, `0`, `0`), `SetEnabled` and `SetIgnoreCount` do nothing for every
argument, the world is the same afterwards, and no call is made on the target
or the watchpoint: in particular the API mutex is never taken. -/
theorem null_handle_sentinels (invalidId : watch_id_t) (invalidAddr : addr_t)
    (disable : World → TargetRef → watch_id_t → World) (w : World) (b : Bool) (n : Nat) :
    SBWatchpointLocation.default.GetID invalidId w = ⟨invalidId, w, []⟩ ∧
    SBWatchpointLocation.default.GetHardwareIndex w = ⟨-1, w, []⟩ ∧
    SBWatchpointLocation.default.GetWatchAddress invalidAddr w = ⟨invalidAddr, w, []⟩ ∧
    SBWatchpointLocation.default.GetWatchSize w = ⟨0, w, []⟩ ∧
    SBWatchpointLocation.default.IsValid w = ⟨false, w, []⟩ ∧
    SBWatchpointLocation.default.IsEnabled w = ⟨false, w, []⟩ ∧
    SBWatchpointLocation.default.GetHitCount w = ⟨0, w, []⟩ ∧
    SBWatchpointLocation.default.GetIgnoreCount w = ⟨0, w, []⟩ ∧
    SBWatchpointLocation.default.SetEnabled disable b w = ⟨(), w, []⟩ ∧
    SBWatchpointLocation.default.SetIgnoreCount n w = ⟨(), w, []⟩ :=
  ⟨rfl, rfl, rfl, rfl, rfl, rfl, rfl, rfl, rfl, rfl⟩

/-! ### Shared lemmas -/

/-- Reading the heap after `World.set`. -/
theorem World.set_heap (w : World) (r r' : Ref) (wp : WatchpointLocation) :
    (w.set r wp).heap r' = if r' = r then wp else w.heap r' := rfl

/-- The modelled disable operation keeps every watchpoint's id. -/
theorem Target.DisableWatchpointLocationByID_id (w : World) (t : TargetRef)
    (watch_id : watch_id_t) (r : Ref) :
    ((Target.DisableWatchpointLocationByID w t watch_id).heap r).id = (w.heap r).id := by
  unfold Target.DisableWatchpointLocationByID
  dsimp only
  split <;> rfl

/-- One operation through a valid handle keeps every watchpoint's id, provided
the target's disable operation does. -/
theorem Op.apply_id (disable : World → TargetRef → watch_id_t → World)
    (hd : ∀ w t i r, ((disable w t i).heap r).id = (w.heap r).id)
    (describe : World → Ref → DescriptionLevel → String)
    (invalidId : watch_id_t) (invalidAddr : addr_t) (this : SBWatchpointLocation)
    (w : World) (op : Op) (r' : Ref) :
    ((Op.apply disable describe invalidId invalidAddr this w op).heap r').id
      = (w.heap r').id := by
  rcases this with ⟨_ | r⟩ <;> cases op <;> try rfl
  case some.SetEnabled b => exact hd _ _ _ _
  case some.SetIgnoreCount n =>
    show ((w.set r ((w.heap r).SetIgnoreCount n)).heap r').id = (w.heap r').id
    rw [World.set_heap]
    split
    · next h => subst h; rfl
    · rfl

/-- A sequence of operations through a valid handle keeps every watchpoint's
id, provided the target's disable operation does. -/
theorem runOps_id (disable : World → TargetRef → watch_id_t → World)
    (hd : ∀ w t i r, ((disable w t i).heap r).id = (w.heap r).id)
    (describe : World → Ref → DescriptionLevel → String)
    (invalidId : watch_id_t) (invalidAddr : addr_t) (this : SBWatchpointLocation)
    (ops : List Op) (w : World) (r' : Ref) :
    ((runOps disable describe invalidId invalidAddr this w ops).heap r').id
      = (w.heap r').id := by
  induction ops generalizing w with
  | nil => rfl
  | cons op ops ih =>
    unfold runOps at ih ⊢
    rw [List.foldl_cons, ih, Op.apply_id disable hd]

/-- One operation other than `SetEnabled` keeps every watchpoint's enabled flag. -/
theorem Op.apply_enabled (disable : World → TargetRef → watch_id_t → World)
    (describe : World → Ref → DescriptionLevel → String)
    (invalidId : watch_id_t) (invalidAddr : addr_t) (this : SBWatchpointLocation)
    (w : World) (op : Op) (hop : op.isSetEnabled = false) (r' : Ref) :
    ((Op.apply disable describe invalidId invalidAddr this w op).heap r').enabled
      = (w.heap r').enabled := by
  rcases this with ⟨_ | r⟩ <;> cases op <;> try rfl
  case some.SetEnabled b => simp [Op.isSetEnabled] at hop
  case some.SetIgnoreCount n =>
    show ((w.set r ((w.heap r).SetIgnoreCount n)).heap r').enabled = (w.heap r').enabled
    rw [World.set_heap]
    split
    · next h => subst h; rfl
    · rfl

/-- Through a valid handle, `GetIgnoreCount` after `SetIgnoreCount (n)` reads
the 32-bit value of `n`. -/
theorem GetIgnoreCount_after_SetIgnoreCount (r : Ref) (w : World) (n : Nat) :
    (SBWatchpointLocation.GetIgnoreCount ⟨some r⟩
      (SBWatchpointLocation.SetIgnoreCount ⟨some r⟩ n w).world).ret = n % 2 ^ 32 := by
  show ((w.set r ((w.heap r).SetIgnoreCount n)).heap r).ignoreCount = n % 2 ^ 32
  rw [World.set_heap, if_pos rfl]
  rfl

/-- A text that ends with the placeholder does not end with a line terminator. -/
theorem endsWithEOL_placeholder (s : String) : endsWithEOL (s ++ "No value") = false := by
  simp [endsWithEOL, String.data_append]

/-- A text to which a line terminator was appended ends with one. -/
theorem endsWithEOL_EOL (s : String) : endsWithEOL (Stream.EOL s) = true := by
  simp [endsWithEOL, Stream.EOL, String.data_append]

/-! ### The claims -/

/-- C2: `SetEnabled (b)` followed by `IsEnabled ()` does not return `b` for
both values of `b`.  Whatever the target's disable operation does, some `b`
is not read back through a valid handle; and with the modelled disable
operation, `SetEnabled (true)` on an armed watchpoint leaves `IsEnabled ()`
false. -/
theorem SetEnabled_true_not_observed :
    (∀ (disable : World → TargetRef → watch_id_t → World) (r : Ref) (w : World),
      ∃ b : Bool,
        (IsEnabled ⟨some r⟩ (SetEnabled disable ⟨some r⟩ b w).world).ret ≠ b) ∧
    (IsEnabled ⟨some 0⟩ sampleWorld).ret = true ∧
    (IsEnabled ⟨some 0⟩
      (SetEnabled Target.DisableWatchpointLocationByID ⟨some 0⟩ true sampleWorld).world).ret
        = false := by
  refine ⟨?_, rfl, rfl⟩
  intro disable r w
  cases h : (IsEnabled ⟨some r⟩ (SetEnabled disable ⟨some r⟩ true w).world).ret
  · exact ⟨true, by rw [h]; decide⟩
  · exact ⟨false, by
      have h2 : (IsEnabled ⟨some r⟩ (SetEnabled disable ⟨some r⟩ false w).world).ret
          = true := h
      rw [h2]; decide⟩

/-- C3: through a valid handle, `SetIgnoreCount (n)` followed at once by
`GetIgnoreCount ()` returns `n`, for every 32-bit unsigned `n`. -/
theorem SetIgnoreCount_GetIgnoreCount (r : Ref) (w : World) (n : Nat)
    (hn : n < 2 ^ 32) :
    (GetIgnoreCount ⟨some r⟩ (SetIgnoreCount ⟨some r⟩ n w).world).ret = n := by
  rw [GetIgnoreCount_after_SetIgnoreCount]
  exact Nat.mod_eq_of_lt hn

/-- Witness of C3: ignore count 9 on the sample world. -/
theorem SetIgnoreCount_GetIgnoreCount_witness :
    (GetIgnoreCount ⟨some 0⟩ (SetIgnoreCount ⟨some 0⟩ 9 sampleWorld).world).ret = 9 :=
  SetIgnoreCount_GetIgnoreCount 0 sampleWorld 9 (by decide)

/-- C4, as stated, fails: after `GetDescription` on the empty handle with an
empty sink at brief level, the sink is `No value` and does not end with a line
terminator. -/
theorem GetDescription_null_no_EOL :
    (GetDescription sampleDescribe SBWatchpointLocation.default ""
      DescriptionLevel.eDescriptionLevelBrief sampleWorld).ret.2 = "No value" ∧
    endsWithEOL (GetDescription sampleDescribe SBWatchpointLocation.default ""
      DescriptionLevel.eDescriptionLevelBrief sampleWorld).ret.2 = false := by
  constructor
  · rfl
  · exact endsWithEOL_placeholder ""

/-- C4, amended: on the empty handle, for every level and every sink,
`GetDescription` appends exactly the placeholder `No value` and nothing after
it, so the sink does not end with a line terminator; it returns true, makes no
call on a target or watchpoint and leaves the world as it was. -/
theorem GetDescription_null_placeholder
    (describe : World → Ref → DescriptionLevel → String) (description : SBStream)
    (level : DescriptionLevel) (w : World) :
    GetDescription describe SBWatchpointLocation.default description level w
      = ⟨(true, description ++ "No value"), w, []⟩ ∧
    endsWithEOL
      (GetDescription describe SBWatchpointLocation.default description level w).ret.2
        = false :=
  ⟨rfl, endsWithEOL_placeholder description⟩

/-- C5: through a valid handle, for every level and every sink,
`GetDescription` only appends: the sink afterwards is the sink before, then
the watchpoint's own description at that level, then one line terminator; so
it ends with a line terminator, and the call returns true. -/
theorem GetDescription_valid_appends
    (describe : World → Ref → DescriptionLevel → String) (r : Ref)
    (description : SBStream) (level : DescriptionLevel) (w : World) :
    (GetDescription describe ⟨some r⟩ description level w).ret.2
      = description ++ describe w r level ++ "\n" ∧
    endsWithEOL (GetDescription describe ⟨some r⟩ description level w).ret.2 = true ∧
    (GetDescription describe ⟨some r⟩ description level w).ret.1 = true ∧
    (GetDescription describe ⟨some r⟩ description level w).world = w :=
  ⟨rfl, endsWithEOL_EOL _, rfl, rfl⟩

/-- C6: a handle made by copy construction or by assignment from `h` holds
the same shared pointer as `h` (an empty `h` gives an empty copy, and
assigning a handle to itself leaves the store of handles as it was); in every
world each accessor returns on the copy what it returns on `h`; and a
`SetIgnoreCount (n)` issued through the copy is read back by
`GetIgnoreCount ()` on `h` whenever `h` is valid. -/
theorem copy_shares_watchpoint (h : SBWatchpointLocation)
    (handles : Nat → SBWatchpointLocation) (a b : Nat)
    (invalidId : watch_id_t) (invalidAddr : addr_t) (w : World) (n : Nat)
    (hn : n < 2 ^ 32) :
    (copy h = h ∧ assign handles a b a = handles b ∧ assign handles a a = handles) ∧
    ((copy h).IsValid w = h.IsValid w ∧
      (copy h).GetID invalidId w = h.GetID invalidId w ∧
      (copy h).GetHardwareIndex w = h.GetHardwareIndex w ∧
      (copy h).GetWatchAddress invalidAddr w = h.GetWatchAddress invalidAddr w ∧
      (copy h).GetWatchSize w = h.GetWatchSize w ∧
      (copy h).IsEnabled w = h.IsEnabled w ∧
      (copy h).GetHitCount w = h.GetHitCount w ∧
      (copy h).GetIgnoreCount w = h.GetIgnoreCount w) ∧
    ((assign handles a b a).IsValid w = (handles b).IsValid w ∧
      (assign handles a b a).GetID invalidId w = (handles b).GetID invalidId w ∧
      (assign handles a b a).GetHardwareIndex w = (handles b).GetHardwareIndex w ∧
      (assign handles a b a).GetWatchAddress invalidAddr w
        = (handles b).GetWatchAddress invalidAddr w ∧
      (assign handles a b a).GetWatchSize w = (handles b).GetWatchSize w ∧
      (assign handles a b a).IsEnabled w = (handles b).IsEnabled w ∧
      (assign handles a b a).GetHitCount w = (handles b).GetHitCount w ∧
      (assign handles a b a).GetIgnoreCount w = (handles b).GetIgnoreCount w) ∧
    (h.GetIgnoreCount ((copy h).SetIgnoreCount n w).world).ret
      = (if (h.IsValid w).ret then n else 0) ∧
    ((handles b).GetIgnoreCount ((assign handles a b a).SetIgnoreCount n w).world).ret
      = (if ((handles b).IsValid w).ret then n else 0) := by
  have hc : copy h = h := rfl
  have ha : assign handles a b a = handles b := by
    unfold assign
    by_cases hab : a = b
    · subst hab; simp
    · simp [hab]
  have hs : assign handles a a = handles := by simp [assign]
  have key : ∀ g : SBWatchpointLocation,
      (g.GetIgnoreCount (g.SetIgnoreCount n w).world).ret
        = (if (g.IsValid w).ret then n else 0) := by
    rintro ⟨_ | r⟩
    · rfl
    · rw [GetIgnoreCount_after_SetIgnoreCount, Nat.mod_eq_of_lt hn]
      rfl
  rw [ha, hc]
  exact ⟨⟨rfl, rfl, hs⟩, ⟨rfl, rfl, rfl, rfl, rfl, rfl, rfl, rfl⟩,
    ⟨rfl, rfl, rfl, rfl, rfl, rfl, rfl, rfl⟩, key h, key (handles b)⟩

/-- Witness of C6: the handle at address 1, empty, is assigned from the valid
handle at address 0; ignore count 9 set through it is read back through the
handle at address 0. -/
theorem copy_shares_watchpoint_witness :
    Outcome.ret (GetIgnoreCount
      ((fun a : Nat => if a = 0 then (⟨some 0⟩ : SBWatchpointLocation) else ⟨none⟩) 0)
      (SetIgnoreCount
        (assign (fun a : Nat => if a = 0 then (⟨some 0⟩ : SBWatchpointLocation) else ⟨none⟩)
          1 0 1)
        9 sampleWorld).world) = 9 :=
  (copy_shares_watchpoint ⟨some 0⟩
    (fun a : Nat => if a = 0 then (⟨some 0⟩ : SBWatchpointLocation) else ⟨none⟩)
    1 0 0 0 sampleWorld 9 (by decide)).2.2.2.2

/-- C7, as stated, fails.  `GetID` on a valid handle reads the watchpoint's id
and takes no lock.  `GetHardwareIndex`, like every member that declares a
locker, first calls `GetTarget ()` on the watchpoint to find the mutex, so its
first call on the watchpoint is made before the lock is held.  Neither trace
keeps the lock discipline. -/
theorem members_read_without_lock :
    (GetID 0 ⟨some 0⟩ sampleWorld).trace = [Event.call 0 Member.GetID] ∧
    lockDisciplined sampleWorld.owner [] (GetID 0 ⟨some 0⟩ sampleWorld).trace = false ∧
    (GetHardwareIndex ⟨some 0⟩ sampleWorld).trace
      = [Event.call 0 Member.GetTarget, Event.getAPIMutex 7, Event.lock 7,
          Event.call 0 Member.GetHardwareIndex, Event.unlock 7] ∧
    lockDisciplined sampleWorld.owner [] (GetHardwareIndex ⟨some 0⟩ sampleWorld).trace
      = false := by
  refine ⟨rfl, rfl, rfl, rfl⟩

/-- C7, amended: on a valid handle, every operation other than `IsValid` and
`GetID` begins with the lookup of the API mutex, `GetTarget ()` on the
watchpoint and `GetAPIMutex ()` on the owning target, made with no lock held;
it then takes that mutex, makes every further call on the watchpoint and the
call of the target's disable operation while holding it, and holds nothing on
return.  `IsValid` makes no call at all; `GetID` makes one call, reading the
watchpoint's id, and takes no lock. -/
theorem lock_discipline_valid_handle
    (disable : World → TargetRef → watch_id_t → World)
    (describe : World → Ref → DescriptionLevel → String)
    (invalidId : watch_id_t) (invalidAddr : addr_t) (r : Ref) (w : World)
    (b : Bool) (n : Nat) (description : SBStream) (level : DescriptionLevel) :
    (lockedAfterLookup w.owner r (GetHardwareIndex ⟨some r⟩ w).trace = true ∧
      lockedAfterLookup w.owner r (GetWatchAddress invalidAddr ⟨some r⟩ w).trace = true ∧
      lockedAfterLookup w.owner r (GetWatchSize ⟨some r⟩ w).trace = true ∧
      lockedAfterLookup w.owner r (SetEnabled disable ⟨some r⟩ b w).trace = true ∧
      lockedAfterLookup w.owner r (IsEnabled ⟨some r⟩ w).trace = true ∧
      lockedAfterLookup w.owner r (GetHitCount ⟨some r⟩ w).trace = true ∧
      lockedAfterLookup w.owner r (GetIgnoreCount ⟨some r⟩ w).trace = true ∧
      lockedAfterLookup w.owner r (SetIgnoreCount ⟨some r⟩ n w).trace = true ∧
      lockedAfterLookup w.owner r
        (GetDescription describe ⟨some r⟩ description level w).trace = true) ∧
    (IsValid ⟨some r⟩ w).trace = [] ∧
    (GetID invalidId ⟨some r⟩ w).trace = [Event.call r Member.GetID] := by
  have hH : (GetHardwareIndex ⟨some r⟩ w).trace
      = [Event.call r Member.GetTarget, Event.getAPIMutex (w.owner r),
          Event.lock (w.owner r), Event.call r Member.GetHardwareIndex,
          Event.unlock (w.owner r)] := rfl
  have hA : (GetWatchAddress invalidAddr ⟨some r⟩ w).trace
      = [Event.call r Member.GetTarget, Event.getAPIMutex (w.owner r),
          Event.lock (w.owner r), Event.call r Member.GetLoadAddress,
          Event.unlock (w.owner r)] := rfl
  have hS : (GetWatchSize ⟨some r⟩ w).trace
      = [Event.call r Member.GetTarget, Event.getAPIMutex (w.owner r),
          Event.lock (w.owner r), Event.call r Member.GetByteSize,
          Event.unlock (w.owner r)] := rfl
  have hE : (SetEnabled disable ⟨some r⟩ b w).trace
      = [Event.call r Member.GetTarget, Event.getAPIMutex (w.owner r),
          Event.lock (w.owner r), Event.call r Member.GetTarget,
          Event.call r Member.GetID, Event.disableByID (w.owner r) (w.heap r).id,
          Event.unlock (w.owner r)] := rfl
  have hI : (IsEnabled ⟨some r⟩ w).trace
      = [Event.call r Member.GetTarget, Event.getAPIMutex (w.owner r),
          Event.lock (w.owner r), Event.call r Member.IsEnabled,
          Event.unlock (w.owner r)] := rfl
  have hC : (GetHitCount ⟨some r⟩ w).trace
      = [Event.call r Member.GetTarget, Event.getAPIMutex (w.owner r),
          Event.lock (w.owner r), Event.call r Member.GetHitCount,
          Event.unlock (w.owner r)] := rfl
  have hG : (GetIgnoreCount ⟨some r⟩ w).trace
      = [Event.call r Member.GetTarget, Event.getAPIMutex (w.owner r),
          Event.lock (w.owner r), Event.call r Member.GetIgnoreCount,
          Event.unlock (w.owner r)] := rfl
  have hN : (SetIgnoreCount ⟨some r⟩ n w).trace
      = [Event.call r Member.GetTarget, Event.getAPIMutex (w.owner r),
          Event.lock (w.owner r), Event.call r Member.SetIgnoreCount,
          Event.unlock (w.owner r)] := rfl
  have hD : (GetDescription describe ⟨some r⟩ description level w).trace
      = [Event.call r Member.GetTarget, Event.getAPIMutex (w.owner r),
          Event.lock (w.owner r), Event.call r Member.GetDescription,
          Event.unlock (w.owner r)] := rfl
  rw [hH, hA, hS, hE, hI, hC, hG, hN, hD]
  refine ⟨?_, rfl, rfl⟩
  simp [lockedAfterLookup, lockDisciplined]

/-- C9: `SetEnabled` ignores its argument.  Through a valid handle, from every
world, `SetEnabled (true)` and `SetEnabled (false)` have the same outcome: the
world obtained by calling the owning target's disable-by-id operation once,
with the id the handle itself reports, between taking and releasing the
target's API mutex. -/
theorem SetEnabled_ignores_argument
    (disable : World → TargetRef → watch_id_t → World) (invalidId : watch_id_t)
    (r : Ref) (w : World) (b : Bool) :
    SetEnabled disable ⟨some r⟩ true w = SetEnabled disable ⟨some r⟩ false w ∧
    (SetEnabled disable ⟨some r⟩ b w).world
      = disable w (w.owner r) (GetID invalidId ⟨some r⟩ w).ret ∧
    (SetEnabled disable ⟨some r⟩ b w).trace
      = [Event.call r Member.GetTarget, Event.getAPIMutex (w.owner r),
          Event.lock (w.owner r), Event.call r Member.GetTarget,
          Event.call r Member.GetID,
          Event.disableByID (w.owner r) (GetID invalidId ⟨some r⟩ w).ret,
          Event.unlock (w.owner r)] :=
  ⟨rfl, rfl, rfl⟩

/-- C10: through a valid handle, over every sequence of operations every
watchpoint keeps its id; an operation other than `SetEnabled` keeps every
watchpoint's enabled flag; every accessor leaves the world as it was; and
`SetIgnoreCount (n)` changes the ignore count of the handle's watchpoint and
nothing else. -/
theorem handle_ops_preserve_state
    (describe : World → Ref → DescriptionLevel → String)
    (invalidId : watch_id_t) (invalidAddr : addr_t) (r : Ref) (w : World)
    (ops : List Op) (op : Op) (hop : op.isSetEnabled = false) (n : Nat) (r' : Ref) :
    ((runOps Target.DisableWatchpointLocationByID describe invalidId invalidAddr
        ⟨some r⟩ w ops).heap r').id = (w.heap r').id ∧
    ((Op.apply Target.DisableWatchpointLocationByID describe invalidId invalidAddr
        ⟨some r⟩ w op).heap r').enabled = (w.heap r').enabled ∧
    ((IsValid ⟨some r⟩ w).world = w ∧
      (GetID invalidId ⟨some r⟩ w).world = w ∧
      (GetHardwareIndex ⟨some r⟩ w).world = w ∧
      (GetWatchAddress invalidAddr ⟨some r⟩ w).world = w ∧
      (GetWatchSize ⟨some r⟩ w).world = w ∧
      (IsEnabled ⟨some r⟩ w).world = w ∧
      (GetHitCount ⟨some r⟩ w).world = w ∧
      (GetIgnoreCount ⟨some r⟩ w).world = w) ∧
    (SetIgnoreCount ⟨some r⟩ n w).world.heap r'
      = (if r' = r then { w.heap r with ignoreCount := n % 2 ^ 32 } else w.heap r') :=
  ⟨runOps_id _ Target.DisableWatchpointLocationByID_id _ _ _ _ _ _ _,
    Op.apply_enabled _ _ _ _ _ _ _ hop _,
    ⟨rfl, rfl, rfl, rfl, rfl, rfl, rfl, rfl⟩, rfl⟩

/-- Witness of C10: on the sample world, after `SetEnabled (true)`,
`SetIgnoreCount (4)` and `GetID ()` the watchpoint still has id 1, and
`SetIgnoreCount (4)` alone leaves it enabled. -/
theorem handle_ops_preserve_state_witness :
    (Op.SetIgnoreCount 4).isSetEnabled = false ∧
    ((runOps Target.DisableWatchpointLocationByID sampleDescribe 0 0 ⟨some 0⟩ sampleWorld
        [Op.SetEnabled true, Op.SetIgnoreCount 4, Op.GetID]).heap 0).id = 1 ∧
    ((Op.apply Target.DisableWatchpointLocationByID sampleDescribe 0 0 ⟨some 0⟩ sampleWorld
        (Op.SetIgnoreCount 4)).heap 0).enabled = true :=
  ⟨rfl,
    (handle_ops_preserve_state sampleDescribe 0 0 0 sampleWorld
      [Op.SetEnabled true, Op.SetIgnoreCount 4, Op.GetID] (Op.SetIgnoreCount 4) rfl 4 0).1,
    (handle_ops_preserve_state sampleDescribe 0 0 0 sampleWorld
      [Op.SetEnabled true, Op.SetIgnoreCount 4, Op.GetID] (Op.SetIgnoreCount 4) rfl 4 0).2.1⟩

end lldb
